import Mathlib

set_option linter.unusedVariables false

/-!
Shallow embedding of the activity-classification pipeline of the
remote-work-tracker backend.

Source files embedded:
  * app/schemas/activity.py   — pydantic request models
  * app/db/models.py          — persisted ActivityLog rows (fields used here)
  * app/services/categorization.py — classify_with_ai, classify_activity
  * app/api/v1/endpoints/activity.py — receive_activity batch handler

Python exceptions are modelled explicitly with `Except PyErr`; the
distinction between exception classes matters because the source's
`try/except` in classify_with_ai catches exactly
httpx.HTTPStatusError, httpx.RequestError, json.JSONDecodeError and
KeyError, and lets every other exception class propagate.
-/

/-- Python exception classes that can arise in the embedded code. -/
inductive PyErr where
  | keyError
  | indexError
  | typeError
  | attributeError
  | jsonDecodeError
  | httpStatusError
  | requestError
  deriving DecidableEq, Repr

/-- The exception classes caught by the two `except` clauses of
classify_with_ai: `except httpx.HTTPStatusError` and
`except (httpx.RequestError, json.JSONDecodeError, KeyError)`.
IndexError, TypeError and AttributeError are NOT in this set. -/
def caughtByClassify (e : PyErr) : Bool :=
  match e with
  | .httpStatusError => true
  | .requestError => true
  | .jsonDecodeError => true
  | .keyError => true
  | _ => false

/-- JSON values, as produced by `response.json()` / `json.loads`. -/
inductive Json where
  | null
  | bool (b : Bool)
  | num (n : Int)
  | str (s : String)
  | arr (elems : List Json)
  | obj (fields : List (String × Json))

/-- Python subscripting `j["k"]` on a decoded JSON value:
on a dict it looks the key up (KeyError when absent); on a list,
string, number, bool or None it raises TypeError. -/
def pySubscriptStr (j : Json) (k : String) : Except PyErr Json :=
  match j with
  | .obj fields =>
      match fields.lookup k with
      | some v => .ok v
      | none => .error .keyError
  | _ => .error .typeError

/-- Python subscripting `j[0]` on a decoded JSON value:
on a list it yields the head (IndexError when empty); on a dict it
raises KeyError (JSON object keys are strings, so 0 is never a key);
on a string it yields the first character (IndexError when empty);
on a number, bool or None it raises TypeError. -/
def pySubscriptZero (j : Json) : Except PyErr Json :=
  match j with
  | .arr elems =>
      match elems with
      | [] => .error .indexError
      | v :: _ => .ok v
  | .obj _ => .error .keyError
  | .str s =>
      match s.data with
      | [] => .error .indexError
      | c :: _ => .ok (.str (String.mk [c]))
  | _ => .error .typeError

/-- Python `.strip()` applied to a decoded JSON value: only a string
has the method; every other value raises AttributeError.  String.trim
stands in for Python's whitespace stripping. -/
def pyStrip (j : Json) : Except PyErr String :=
  match j with
  | .str s => .ok s.trim
  | _ => .error .attributeError

/-- Python `response_data.get("category")` followed by
`category if category in ["Work", "Private"] else "Private"`:
on a dict, a missing key or a value other than the strings "Work" or
"Private" yields "Private"; on any non-dict value `.get` raises
AttributeError. -/
def pyGetCategory (j : Json) : Except PyErr String :=
  match j with
  | .obj fields =>
      match fields.lookup "category" with
      | some (.str s) => if s = "Work" ∨ s = "Private" then .ok s else .ok "Private"
      | some _ => .ok "Private"
      | none => .ok "Private"
  | _ => .error .attributeError

/-- Outcome of the outbound HTTPS POST to the AI endpoint, as seen by
the caller: either the request itself fails (httpx.RequestError,
which includes timeouts), or a response arrives with a status code
and a body; `none` for the body means `response.json()` cannot decode
it (json.JSONDecodeError). -/
inductive HttpOutcome where
  | requestError
  | response (status : Nat) (body : Option Json)

/-- httpx `response.raise_for_status()` raises httpx.HTTPStatusError
for every non-2xx status. -/
def is2xx (status : Nat) : Bool :=
  200 ≤ status ∧ status < 300

/-- The body of the `try` block of classify_with_ai after
`raise_for_status` has passed: extract
`response.json()["choices"][0]["message"]["content"].strip()`,
decode it with `json.loads` (modelled by the parameter `loads`, with
`none` for a JSONDecodeError), and read out the "category" field.
`loads` abstracts the json library; every theorem below holds for an
arbitrary decoder. -/
def parseAIResponse (loads : String → Option Json) (body : Option Json) :
    Except PyErr String :=
  match body with
  | none => .error .jsonDecodeError
  | some j =>
      match pySubscriptStr j "choices" with
      | .error e => .error e
      | .ok choices =>
          match pySubscriptZero choices with
          | .error e => .error e
          | .ok first =>
              match pySubscriptStr first "message" with
              | .error e => .error e
              | .ok message =>
                  match pySubscriptStr message "content" with
                  | .error e => .error e
                  | .ok content =>
                      match pyStrip content with
                      | .error e => .error e
                      | .ok text =>
                          match loads text with
                          | none => .error .jsonDecodeError
                          | some responseData => pyGetCategory responseData

/-- classify_with_ai (app/services/categorization.py).  `apiKey` is
settings.PERPLEXITY_AI_API_KEY; an empty key returns "Private" before
any request is made (the outcome argument is unused on that path).
Otherwise the HTTP outcome is processed inside try/except: request
errors, non-2xx statuses and the caught parsing failures all resolve
to "Private", while an exception class outside the two except clauses
propagates to the caller.  `app_name` and `window_title` only shape
the outbound request payload, never the handling of the response. -/
def classify_with_ai (loads : String → Option Json) (apiKey : String)
    (outcome : HttpOutcome) (app_name window_title : String) : Except PyErr String :=
  if apiKey = "" then .ok "Private"
  else
    match outcome with
    | .requestError => .ok "Private"
    | .response status body =>
        if is2xx status then
          match parseAIResponse loads body with
          | .ok category => .ok category
          | .error e => if caughtByClassify e then .ok "Private" else .error e
        else .ok "Private"

/-- ActivityLogEntry (app/schemas/activity.py).  The pydantic model
declares exactly these four fields; in particular it declares NO
`duration` field, so a "duration" key in the submitted JSON is
dropped by pydantic and attribute access `entry.duration` raises
AttributeError.  `timestamp` (a datetime) is modelled as an integer
instant. -/
structure ActivityLogEntry where
  timestamp : Int
  state : String
  app : Option String
  title : Option String
  deriving DecidableEq, Repr

/-- ActivityPayload (app/schemas/activity.py). -/
structure ActivityPayload where
  employee_id : String
  logs : List ActivityLogEntry
  deriving DecidableEq, Repr

/-- Python truthiness of an optional string: None and "" are falsy. -/
def truthy (s : Option String) : Bool :=
  match s with
  | none => false
  | some s => s ≠ ""

/-- Python `a or b` on optional strings: yields `a` when truthy,
otherwise `b`. -/
def pyOr (a b : Option String) : Option String :=
  if truthy a then a else b

/-- Python `log.app or "Unknown"`: None and "" both fall back. -/
def orUnknown (s : Option String) : String :=
  match pyOr s (some "Unknown") with
  | some v => v
  | none => "Unknown"

/-- classify_activity (app/services/categorization.py), parameterised
by `ai`, the behaviour of the awaited classify_with_ai call (a
function of the two strings actually passed, returning either a label
or a raised exception).  The source has only two branches: an early
return on `state == "idle"`, and the AI call for everything else;
there is no allow-list, deny-list or browser rule table.  On a "Work"
label the details string is built from the original optional fields
with Python truthiness semantics; on every other label details is
None.  `workDetails` is the detail construction of the "Work" branch:
`f"{log.app} - {log.title}"` when `log.app and log.title` is truthy,
else `log.title or log.app`. -/
def workDetails (log : ActivityLogEntry) : Option String :=
  if truthy log.app ∧ truthy log.title then
    match log.app, log.title with
    | some a, some t => some (a ++ " - " ++ t)
    | _, _ => none
  else pyOr log.title log.app

def classify_activity (ai : String → String → Except PyErr String)
    (log : ActivityLogEntry) : Except PyErr (String × Option String) :=
  if log.state = "idle" then .ok ("Idle", none)
  else
    match ai (orUnknown log.app) (orUnknown log.title) with
    | .error e => .error e
    | .ok category =>
        .ok (category, if category = "Work" then workDetails log else none)

/-- User (app/db/models.py): the columns the ingestion path reads —
the numeric primary key and the external employee identifier.  The
remaining columns (full_name, email, hashed_password, role,
manager_id) never influence ingestion and are omitted. -/
structure User where
  id : Nat
  employee_id : String
  deriving DecidableEq, Repr

/-- ActivityLog (app/db/models.py): one persisted row. -/
structure ActivityLogRow where
  user_id : Nat
  start_time : Int
  duration_seconds : Int
  category : String
  details : Option String
  deriving DecidableEq, Repr

/-- The database state visible to receive_activity: the users table
and the activity_logs table (rows in insertion order). -/
structure DB where
  users : List User
  logs : List ActivityLogRow
  deriving DecidableEq, Repr

/-- `db.query(models.User).filter(models.User.employee_id ==
payload.employee_id).first()`. -/
def findUser (db : DB) (employee_id : String) : Option User :=
  db.users.find? (fun u => u.employee_id = employee_id)

/-- HTTP-level results of receive_activity: 404 for an unknown
employee (the raised HTTPException), 500 for any unhandled exception
(FastAPI converts it to an internal server error response). -/
inductive HTTPErr where
  | notFound
  | internalServerError
  deriving DecidableEq, Repr

/-- `original_log.duration` in receive_activity
(app/api/v1/endpoints/activity.py).  ActivityLogEntry declares no
`duration` field, so pydantic raises AttributeError on this attribute
access for every entry. -/
def getDuration (log : ActivityLogEntry) : Except PyErr Int :=
  .error .attributeError

/-- Assembly of one models.ActivityLog row inside the zip loop of
receive_activity: reads `original_log.duration` (which raises, see
getDuration) and copies the sample's timestamp and the
classification's category/details. -/
def assembleRow (userId : Nat) (log : ActivityLogEntry)
    (result : String × Option String) : Except PyErr ActivityLogRow :=
  match getDuration log with
  | .error e => .error e
  | .ok d =>
      .ok { user_id := userId, start_time := log.timestamp,
            duration_seconds := d, category := result.1, details := result.2 }

/-- `asyncio.gather` over the classification tasks: results are
returned in task order (gather's documented contract), independent of
completion order; the first raised exception propagates out of the
gather call. Modelled as an in-order traversal in the Except monad. -/
def gatherClassify (ai : String → String → Except PyErr String) :
    List ActivityLogEntry → Except PyErr (List (String × Option String))
  | [] => .ok []
  | log :: rest =>
      match classify_activity ai log with
      | .error e => .error e
      | .ok r =>
          match gatherClassify ai rest with
          | .error e => .error e
          | .ok rs => .ok (r :: rs)

/-- The assembly loop `for original_log, (category, details) in
zip(payload.logs, processed_results)`. -/
def assembleAll (userId : Nat) :
    List (ActivityLogEntry × (String × Option String)) →
    Except PyErr (List ActivityLogRow)
  | [] => .ok []
  | p :: rest =>
      match assembleRow userId p.1 p.2 with
      | .error e => .error e
      | .ok row =>
          match assembleAll userId rest with
          | .error e => .error e
          | .ok rows => .ok (row :: rows)

/-- receive_activity (app/api/v1/endpoints/activity.py), after the
API-key dependency has passed.  Returns the response (logs_processed
count, or an HTTP error) together with the final database state: the
user lookup failure raises a 404 before any classification; an
exception anywhere later (gather or the assembly loop) aborts the
request before `db.commit()`, so the database is unchanged; on
success all assembled rows are committed in one `add_all`/`commit`. -/
def receive_activity (ai : String → String → Except PyErr String)
    (db : DB) (payload : ActivityPayload) : Except HTTPErr Nat × DB :=
  match findUser db payload.employee_id with
  | none => (.error .notFound, db)
  | some user =>
      match gatherClassify ai payload.logs with
      | .error _ => (.error .internalServerError, db)
      | .ok results =>
          match assembleAll user.id (payload.logs.zip results) with
          | .error _ => (.error .internalServerError, db)
          | .ok rows => (.ok rows.length, { db with logs := db.logs ++ rows })

/-! Helper lemmas about the batch pipeline. -/

theorem gatherClassify_ok_length (ai : String → String → Except PyErr String) :
    ∀ (logs : List ActivityLogEntry) (results : List (String × Option String)),
      gatherClassify ai logs = .ok results → results.length = logs.length := by
  intro logs
  induction logs with
  | nil =>
      intro results h
      simp only [gatherClassify] at h
      cases h
      rfl
  | cons log rest ih =>
      intro results h
      simp only [gatherClassify] at h
      cases hc : classify_activity ai log with
      | error e => rw [hc] at h; cases h
      | ok r =>
          rw [hc] at h
          cases hg : gatherClassify ai rest with
          | error e => rw [hg] at h; cases h
          | ok rs =>
              rw [hg] at h
              cases h
              simp [ih rs hg]

theorem assembleRow_always_raises (userId : Nat) (log : ActivityLogEntry)
    (result : String × Option String) :
    assembleRow userId log result = .error .attributeError := rfl

theorem assembleAll_ok_nil (userId : Nat)
    (pairs : List (ActivityLogEntry × (String × Option String)))
    (rows : List ActivityLogRow) (h : assembleAll userId pairs = .ok rows) :
    pairs = [] ∧ rows = [] := by
  cases pairs with
  | nil =>
      simp only [assembleAll] at h
      cases h
      exact ⟨rfl, rfl⟩
  | cons p rest =>
      simp only [assembleAll, assembleRow_always_raises] at h
      cases h

theorem receive_activity_ok_empty (ai : String → String → Except PyErr String)
    (db : DB) (payload : ActivityPayload) (n : Nat) (db2 : DB)
    (h : receive_activity ai db payload = (.ok n, db2)) :
    payload.logs = [] ∧ n = 0 ∧ db2 = db := by
  unfold receive_activity at h
  split at h
  · cases h
  · rename_i user hu
    split at h
    · cases h
    · rename_i results hg
      split at h
      · cases h
      · rename_i rows ha
        obtain ⟨hzip, hrows⟩ := assembleAll_ok_nil _ _ _ ha
        have hlen := gatherClassify_ok_length ai payload.logs results hg
        have hlogs : payload.logs = [] := by
          cases hl : payload.logs with
          | nil => rfl
          | cons x xs =>
              cases hr : results with
              | nil => rw [hl, hr] at hlen; simp at hlen
              | cons y ys => rw [hl, hr] at hzip; simp [List.zip] at hzip
        injection h with h1 h2
        injection h1 with h1
        subst hrows
        refine ⟨hlogs, h1.symm, ?_⟩
        rw [← h2]
        cases db
        simp

theorem receive_activity_error_unchanged (ai : String → String → Except PyErr String)
    (db : DB) (payload : ActivityPayload) (e : HTTPErr) (db2 : DB)
    (h : receive_activity ai db payload = (.error e, db2)) : db2 = db := by
  unfold receive_activity at h
  split at h
  · injection h with h1 h2; exact h2.symm
  · rename_i user hu
    split at h
    · injection h with h1 h2; exact h2.symm
    · rename_i results hg
      split at h
      · injection h with h1 h2; exact h2.symm
      · injection h with h1 h2; cases h1

/-! Claim theorems. -/

/-- C3: for every sample with `state == "idle"`, classification
returns (Idle, null); the theorem is quantified over every possible
behaviour `ai` of the AI call, so the result is independent of the AI
call — in particular an AI call that would raise cannot affect it,
i.e. the AI classifier is never consulted for idle samples. -/
theorem idle_short_circuits_ai (ai : String → String → Except PyErr String)
    (log : ActivityLogEntry) (h : log.state = "idle") :
    classify_activity ai log = .ok ("Idle", none) := by
  simp [classify_activity, h]

theorem idle_short_circuits_ai_witness :
    (({ timestamp := 0, state := "idle", app := some "Code",
        title := some "secret" } : ActivityLogEntry).state = "idle") ∧
    classify_activity (fun _ _ => .error .indexError)
      { timestamp := 0, state := "idle", app := some "Code", title := some "secret" } =
      .ok ("Idle", none) :=
  ⟨rfl, idle_short_circuits_ai _ _ rfl⟩

/-- C2 counterexample: classify_activity has no private-application
deny-list.  A sample from the media app "spotify" with a revealing
title is sent to the AI call, and when that call answers "Work" the
classification is ("Work", "spotify - My Secret Playlist") rather
than the claimed ("Private", null) — the title is retained.  The
second conjunct shows the result changes with the AI answer, i.e. the
AI call is consulted for this sample. -/
theorem private_app_title_leak_counterexample :
    classify_activity (fun _ _ => .ok "Work")
      { timestamp := 0, state := "active", app := some "spotify",
        title := some "My Secret Playlist" } =
      .ok ("Work", some "spotify - My Secret Playlist") ∧
    classify_activity (fun _ _ => .ok "Private")
      { timestamp := 0, state := "active", app := some "spotify",
        title := some "My Secret Playlist" } =
      .ok ("Private", none) ∧
    ("Work", some "spotify - My Secret Playlist") ≠
      (("Private" : String), (none : Option String)) :=
  ⟨rfl, rfl, by decide⟩

/-- C2 amended: there is no deny-list, so a private-application
sample yields ("Private", null) exactly when the AI call it is
subjected to returns the label "Private"; no detail is retained in
that case.  (When the AI answers "Work" the detail leaks, see the
counterexample.) -/
theorem private_label_yields_private_null
    (ai : String → String → Except PyErr String) (log : ActivityLogEntry)
    (hstate : log.state ≠ "idle")
    (hai : ai (orUnknown log.app) (orUnknown log.title) = .ok "Private") :
    classify_activity ai log = .ok ("Private", none) := by
  simp [classify_activity, hstate, hai]

theorem private_label_yields_private_null_witness :
    classify_activity (fun _ _ => .ok "Private")
      { timestamp := 0, state := "active", app := some "spotify",
        title := some "Daily Mix 1" } =
      .ok ("Private", none) :=
  private_label_yields_private_null (fun _ _ => .ok "Private")
    { timestamp := 0, state := "active", app := some "spotify",
      title := some "Daily Mix 1" } (by decide) rfl

/-- C7 counterexample: a browser sample with no window title is not
short-circuited to ("Private", null): classify_activity substitutes
"Unknown" for the missing title and still makes the AI call, and when
that call answers "Work" the result is ("Work", "Google Chrome").
The two conjuncts with different AI answers show the AI call is
consulted. -/
theorem browser_no_title_leak_counterexample :
    classify_activity (fun _ _ => .ok "Work")
      { timestamp := 0, state := "active", app := some "Google Chrome",
        title := none } =
      .ok ("Work", some "Google Chrome") ∧
    classify_activity (fun _ _ => .ok "Private")
      { timestamp := 0, state := "active", app := some "Google Chrome",
        title := none } =
      .ok ("Private", none) ∧
    ("Work", some "Google Chrome") ≠ (("Private" : String), (none : Option String)) :=
  ⟨rfl, rfl, by decide⟩

/-- C7 amended: for a non-idle sample with no window title (browser
or not — the code never inspects the application name), the AI call
is made with "Unknown" in place of the title; the sample is
classified ("Private", null) only when that call returns a non-"Work"
label, and a "Work" answer retains the application name as detail. -/
theorem no_title_ai_still_called
    (ai : String → String → Except PyErr String) (log : ActivityLogEntry)
    (c : String) (hstate : log.state ≠ "idle") (htitle : log.title = none)
    (hai : ai (orUnknown log.app) "Unknown" = .ok c) :
    classify_activity ai log =
      .ok (c, if c = "Work" then log.app else none) := by
  have hnone : orUnknown none = "Unknown" := rfl
  simp [classify_activity, hstate, htitle, hnone, hai, workDetails, truthy, pyOr]

theorem no_title_ai_still_called_witness :
    classify_activity (fun _ _ => .ok "Work")
      { timestamp := 0, state := "active", app := some "Google Chrome",
        title := none } =
      .ok ("Work", some "Google Chrome") := by
  have h := no_title_ai_still_called (fun _ _ => .ok "Work")
    { timestamp := 0, state := "active", app := some "Google Chrome", title := none }
    "Work" (by decide) rfl rfl
  simpa using h

/-- C8 counterexample: the code tests presence with Python
truthiness, not with None-ness.  A Work-classified sample whose `app`
field is present but empty (app = "", title = "Doc") has both fields
present, so the claim requires the composition "" ++ " - " ++ "Doc";
the code instead falls into the `log.title or log.app` branch and
stores "Doc". -/
theorem empty_app_details_counterexample :
    classify_activity (fun _ _ => .ok "Work")
      { timestamp := 0, state := "active", app := some "", title := some "Doc" } =
      .ok ("Work", some "Doc") ∧
    some "Doc" ≠ some ("" ++ " - " ++ "Doc") :=
  ⟨rfl, by decide⟩

/-- C8 amended: for every sample classified as Work, with "present"
strengthened to "present and non-empty" (the code's truthiness test):
when both app and title are present and non-empty the details are the
composition `app - title`; when exactly one is, the details are
whichever one is. -/
theorem work_details_composition (ai : String → String → Except PyErr String)
    (ts : Int) (st a t : String) (hst : st ≠ "idle") (ha : a ≠ "") (ht : t ≠ "") :
    (ai a t = .ok "Work" →
      classify_activity ai { timestamp := ts, state := st, app := some a, title := some t } =
        .ok ("Work", some (a ++ " - " ++ t))) ∧
    (ai a "Unknown" = .ok "Work" →
      classify_activity ai { timestamp := ts, state := st, app := some a, title := none } =
        .ok ("Work", some a)) ∧
    (ai "Unknown" t = .ok "Work" →
      classify_activity ai { timestamp := ts, state := st, app := none, title := some t } =
        .ok ("Work", some t)) := by
  have hnone : orUnknown none = "Unknown" := rfl
  have hsome : ∀ s : String, s ≠ "" → orUnknown (some s) = s := by
    intro s hs
    simp [orUnknown, pyOr, truthy, hs]
  refine ⟨?_, ?_, ?_⟩ <;> intro hai <;>
    simp [classify_activity, hst, hnone, hsome, ha, ht, hai, workDetails, truthy, pyOr]

theorem work_details_composition_witness :
    classify_activity (fun _ _ => .ok "Work")
      { timestamp := 0, state := "active", app := some "Code", title := some "main.py" } =
      .ok ("Work", some "Code - main.py") := by
  have h := (work_details_composition (fun _ _ => .ok "Work") 0 "active" "Code" "main.py"
    (by decide) (by decide) (by decide)).1 rfl
  simpa using h

/-- C9: details are non-null only for the Work category.  First
conjunct: every classification result with a category other than
"Work" — for any sample and any behaviour of the AI call, including
ill-behaved labels — has null details.  Second conjunct: every row a
successful ingestion adds to the database inherits this invariant
(rows already present are untouched). -/
theorem details_only_for_work :
    (∀ (ai : String → String → Except PyErr String) (log : ActivityLogEntry)
        (cat : String) (det : Option String),
        classify_activity ai log = .ok (cat, det) → cat ≠ "Work" → det = none) ∧
    (∀ (ai : String → String → Except PyErr String) (db : DB)
        (payload : ActivityPayload) (n : Nat) (db2 : DB),
        receive_activity ai db payload = (.ok n, db2) →
        ∀ row ∈ db2.logs, row ∈ db.logs ∨ (row.category ≠ "Work" → row.details = none)) := by
  constructor
  · intro ai log cat det h hw
    unfold classify_activity at h
    split at h
    · injection h with h1
      injection h1 with hc hd
      exact hd.symm
    · split at h
      · cases h
      · rename_i category hai
        injection h with h1
        injection h1 with hc hd
        subst hc
        rw [if_neg hw] at hd
        exact hd.symm
  · intro ai db payload n db2 h row hrow
    obtain ⟨hlogs, hn, hdb⟩ := receive_activity_ok_empty ai db payload n db2 h
    subst hdb
    exact Or.inl hrow

theorem details_only_for_work_witness :
    classify_activity (fun _ _ => .ok "Banana")
      { timestamp := 0, state := "active", app := some "x", title := some "y" } =
      .ok ("Banana", none) ∧ (none : Option String) = none :=
  ⟨rfl, details_only_for_work.1 (fun _ _ => .ok "Banana")
    { timestamp := 0, state := "active", app := some "x", title := some "y" }
    "Banana" none rfl (by decide)⟩

theorem pyGetCategory_ok_label (j : Json) (c : String)
    (h : pyGetCategory j = .ok c) : c = "Work" ∨ c = "Private" := by
  unfold pyGetCategory at h
  split at h
  · split at h
    · split at h
      · injection h with h1
        subst h1
        assumption
      · injection h with h1
        exact Or.inr h1.symm
    · injection h with h1
      exact Or.inr h1.symm
    · injection h with h1
      exact Or.inr h1.symm
  · cases h

theorem parseAIResponse_ok_label (loads : String → Option Json)
    (body : Option Json) (c : String)
    (h : parseAIResponse loads body = .ok c) : c = "Work" ∨ c = "Private" := by
  unfold parseAIResponse at h
  split at h
  · cases h
  · split at h
    · cases h
    · split at h
      · cases h
      · split at h
        · cases h
        · split at h
          · cases h
          · split at h
            · cases h
            · split at h
              · cases h
              · exact pyGetCategory_ok_label _ _ h

theorem classify_with_ai_ok_label (loads : String → Option Json)
    (apiKey : String) (outcome : HttpOutcome) (a t c : String)
    (h : classify_with_ai loads apiKey outcome a t = .ok c) :
    c = "Work" ∨ c = "Private" := by
  unfold classify_with_ai at h
  split at h
  · injection h with h1
    exact Or.inr h1.symm
  · split at h
    · injection h with h1
      exact Or.inr h1.symm
    · split at h
      · split at h
        · rename_i category hp
          injection h with h1
          subst h1
          exact parseAIResponse_ok_label _ _ _ hp
        · split at h
          · injection h with h1
            exact Or.inr h1.symm
          · cases h
      · injection h with h1
        exact Or.inr h1.symm

/-- C4 counterexample: a 2xx response whose body decodes to the JSON
object with "choices" bound to an empty list makes
`response.json()["choices"][0]` raise IndexError, an exception class
neither `except` clause of classify_with_ai catches — the call
propagates the exception instead of returning "Private", although
such a body is exactly a "response body not parseable as the expected
single-key structured label".  (The inner `json.loads` is never
reached on this input, so the concrete decoder is irrelevant.) -/
theorem ai_empty_choices_raises_counterexample :
    classify_with_ai (fun _ => none) "key"
      (.response 200 (some (.obj [("choices", .arr [])]))) "Code" "main.py" =
      .error .indexError ∧
    (Except.error PyErr.indexError : Except PyErr String) ≠ .ok "Private" :=
  ⟨rfl, fun h => Except.noConfusion h⟩

/-- C4 amended: classify_with_ai returns "Private" for the failure
modes its except clauses cover — request errors/timeouts, non-2xx
statuses, bodies that fail JSON decoding, and every parsing failure
whose exception class is caught (KeyError, JSONDecodeError) — and
whenever it returns normally the label is "Work" or "Private"; but a
malformed body whose failure raises an uncaught class (IndexError,
TypeError, AttributeError — e.g. an empty "choices" list) propagates
an exception to the caller instead (see the counterexample). -/
theorem ai_failure_modes_return_private (loads : String → Option Json)
    (apiKey : String) (a t : String) :
    (∀ (outcome : HttpOutcome) (c : String),
        classify_with_ai loads apiKey outcome a t = .ok c →
        c = "Work" ∨ c = "Private") ∧
    classify_with_ai loads apiKey .requestError a t = .ok "Private" ∧
    (∀ (status : Nat) (body : Option Json), is2xx status = false →
        classify_with_ai loads apiKey (.response status body) a t = .ok "Private") ∧
    (∀ status : Nat,
        classify_with_ai loads apiKey (.response status none) a t = .ok "Private") ∧
    (∀ (status : Nat) (j : Json) (e : PyErr),
        parseAIResponse loads (some j) = .error e → caughtByClassify e = true →
        classify_with_ai loads apiKey (.response status (some j)) a t = .ok "Private") := by
  by_cases hk : apiKey = ""
  · refine ⟨?_, ?_, ?_, ?_, ?_⟩ <;>
      simp [classify_with_ai, hk]
  · refine ⟨?_, ?_, ?_, ?_, ?_⟩
    · intro outcome c h
      exact classify_with_ai_ok_label loads apiKey outcome a t c h
    · simp [classify_with_ai, hk]
    · intro status body h2
      simp [classify_with_ai, hk, h2]
    · intro status
      by_cases h2 : is2xx status <;>
        simp [classify_with_ai, hk, h2, parseAIResponse, caughtByClassify]
    · intro status j e hp hc
      by_cases h2 : is2xx status <;>
        simp [classify_with_ai, hk, h2, hp, hc]

theorem ai_failure_modes_return_private_witness :
    classify_with_ai (fun _ => none) "key" .requestError "Code" "main.py" =
      .ok "Private" ∧
    classify_with_ai (fun _ => none) "key" (.response 500 (some (.obj [])))
      "Code" "main.py" = .ok "Private" :=
  ⟨(ai_failure_modes_return_private (fun _ => none) "key" "Code" "main.py").2.1,
   (ai_failure_modes_return_private (fun _ => none) "key" "Code" "main.py").2.2.1
     500 (some (.obj [])) (by decide)⟩

theorem receive_activity_notFound_user (ai : String → String → Except PyErr String)
    (db : DB) (payload : ActivityPayload) (db2 : DB)
    (h : receive_activity ai db payload = (.error .notFound, db2)) :
    findUser db payload.employee_id = none := by
  unfold receive_activity at h
  split at h
  · rename_i hu
    exact hu
  · split at h
    · injection h with h1 h2
      injection h1 with h1
      cases h1
    · split at h
      · injection h with h1 h2
        injection h1 with h1
        cases h1
      · injection h with h1 h2
        cases h1

/-- C5: ingestion is atomic.  An unknown employee_id is rejected with
the not-found signal, the database is untouched, and the outcome is
the same for every behaviour of the classification step (no
classification influences it).  Whenever the handler reports an error
the logs table is unchanged (zero records persisted), and whenever it
succeeds it reports exactly one persisted record per input sample —
never a partial count. -/
theorem ingestion_atomicity (ai : String → String → Except PyErr String)
    (db : DB) (payload : ActivityPayload) :
    (findUser db payload.employee_id = none →
      ∀ ai2 : String → String → Except PyErr String,
        receive_activity ai2 db payload = (.error .notFound, db)) ∧
    (∀ (e : HTTPErr) (db2 : DB),
        receive_activity ai db payload = (.error e, db2) → db2 = db) ∧
    (∀ (n : Nat) (db2 : DB),
        receive_activity ai db payload = (.ok n, db2) →
        n = payload.logs.length ∧
        db2.logs.length = db.logs.length + payload.logs.length) := by
  refine ⟨?_, ?_, ?_⟩
  · intro hu ai2
    unfold receive_activity
    rw [hu]
  · intro e db2 h
    exact receive_activity_error_unchanged ai db payload e db2 h
  · intro n db2 h
    obtain ⟨hlogs, hn, hdb⟩ := receive_activity_ok_empty ai db payload n db2 h
    subst hdb
    simp [hlogs, hn]

theorem ingestion_atomicity_witness :
    findUser { users := [{ id := 1, employee_id := "EMP-1" }], logs := [] }
      "EMP-2" = none ∧
    receive_activity (fun _ _ => .ok "Work")
      { users := [{ id := 1, employee_id := "EMP-1" }], logs := [] }
      { employee_id := "EMP-2",
        logs := [{ timestamp := 0, state := "active", app := none, title := none }] } =
      (.error .notFound, { users := [{ id := 1, employee_id := "EMP-1" }], logs := [] }) :=
  ⟨rfl, (ingestion_atomicity (fun _ _ => .ok "Work")
    { users := [{ id := 1, employee_id := "EMP-1" }], logs := [] }
    { employee_id := "EMP-2",
      logs := [{ timestamp := 0, state := "active", app := none, title := none }] }).1
    rfl (fun _ _ => .ok "Work")⟩

/-- C6: the claimed guarantee is unattainable because of the missing
duration field — for every batch with a known employee and at least
one sample, and every behaviour of the AI call, the handler raises
(AttributeError on `original_log.duration` during record assembly, or
earlier) and persists nothing, so no non-empty batch is ever
"successfully ingested" and the claimed N ordered records are never
produced. -/
theorem nonempty_batch_never_persists (ai : String → String → Except PyErr String)
    (db : DB) (payload : ActivityPayload) (user : User)
    (hu : findUser db payload.employee_id = some user)
    (hne : payload.logs ≠ []) :
    receive_activity ai db payload = (.error .internalServerError, db) := by
  rcases hres : receive_activity ai db payload with ⟨r, db2⟩
  cases r with
  | ok n =>
      obtain ⟨hlogs, _, _⟩ := receive_activity_ok_empty ai db payload n db2 hres
      exact absurd hlogs hne
  | error e =>
      have hdb := receive_activity_error_unchanged ai db payload e db2 hres
      subst hdb
      cases e with
      | notFound =>
          have hnone := receive_activity_notFound_user ai _ payload _ hres
          rw [hu] at hnone
          cases hnone
      | internalServerError => rfl

theorem nonempty_batch_never_persists_witness :
    receive_activity (fun _ _ => .ok "Work")
      { users := [{ id := 1, employee_id := "EMP-1" }], logs := [] }
      { employee_id := "EMP-1",
        logs := [{ timestamp := 1000, state := "active", app := some "Code",
                   title := some "main.py" }] } =
      (.error .internalServerError,
       { users := [{ id := 1, employee_id := "EMP-1" }], logs := [] }) :=
  nonempty_batch_never_persists (fun _ _ => .ok "Work")
    { users := [{ id := 1, employee_id := "EMP-1" }], logs := [] }
    { employee_id := "EMP-1",
      logs := [{ timestamp := 1000, state := "active", app := some "Code",
                 title := some "main.py" }] }
    { id := 1, employee_id := "EMP-1" } rfl (by decide)

/-- C1: the duration policy does not exist in the code.  A daemon
sample carrying duration 42 arrives at the handler as the entry below
— ActivityLogEntry declares no duration field, so pydantic has
dropped the supplied 42 — and the handler's `original_log.duration`
read raises AttributeError: the whole batch is rejected with a server
error and zero records are persisted, so no record with
duration_seconds 42 (nor any default of 5; no such default exists in
the endpoint) is ever written. -/
theorem missing_duration_field_rejects_batch :
    receive_activity (fun _ _ => .ok "Work")
      { users := [{ id := 1, employee_id := "EMP-1" }], logs := [] }
      { employee_id := "EMP-1",
        logs := [{ timestamp := 1000, state := "active", app := some "Code",
                   title := some "main.py" }] } =
      (.error .internalServerError,
       { users := [{ id := 1, employee_id := "EMP-1" }], logs := [] }) ∧
    getDuration { timestamp := 1000, state := "active", app := some "Code",
                  title := some "main.py" } = .error .attributeError :=
  ⟨rfl, rfl⟩

/-- C10 counterexample: with an empty API key every per-sample
classification does resolve to ("Private", null) without consulting
any HTTP outcome, but "ingestion still succeeds" is false — the batch
below (known employee, one non-idle sample) is rejected with a server
error and persists nothing, because record assembly reads the missing
duration field. -/
theorem empty_key_ingestion_fails_counterexample :
    classify_with_ai (fun _ => none) "" .requestError "Code" "main.py" =
      .ok "Private" ∧
    receive_activity
      (fun a t => classify_with_ai (fun _ => none) "" .requestError a t)
      { users := [{ id := 1, employee_id := "EMP-1" }], logs := [] }
      { employee_id := "EMP-1",
        logs := [{ timestamp := 1000, state := "active", app := some "Code",
                   title := some "main.py" }] } =
      (.error .internalServerError,
       { users := [{ id := 1, employee_id := "EMP-1" }], logs := [] }) :=
  ⟨rfl, rfl⟩

/-- C10 amended: if the AI API key is unset/empty, classify_with_ai
returns "Private" for every input without making any outbound request
— the result is the same for every possible HTTP outcome `env`, which
is how "no request is made" manifests in the model — and therefore
every non-idle sample is classified ("Private", null); classification
itself never fails the batch, but ingestion of a non-empty batch
still fails on the unrelated missing-duration defect (see the
counterexample and C1). -/
theorem empty_key_private_no_request (loads : String → Option Json)
    (env : String → String → HttpOutcome) (log : ActivityLogEntry)
    (hstate : log.state ≠ "idle") :
    (∀ a t : String, classify_with_ai loads "" (env a t) a t = .ok "Private") ∧
    classify_activity (fun a t => classify_with_ai loads "" (env a t) a t) log =
      .ok ("Private", none) := by
  have hk : ∀ a t : String, classify_with_ai loads "" (env a t) a t = .ok "Private" := by
    intro a t
    simp [classify_with_ai]
  refine ⟨hk, ?_⟩
  simp [classify_activity, hstate, hk]

theorem empty_key_private_no_request_witness :
    classify_activity
      (fun a t => classify_with_ai (fun _ => none) "" .requestError a t)
      { timestamp := 0, state := "active", app := some "Figma",
        title := some "Design review" } =
      .ok ("Private", none) :=
  (empty_key_private_no_request (fun _ => none) (fun _ _ => .requestError)
    { timestamp := 0, state := "active", app := some "Figma",
      title := some "Design review" } (by decide)).2
